import Mathlib

/-!
Shallow embedding of `scripts/generate-diagrams.py`.

The script declares four fixed architecture diagrams and renders them with
the external `diagrams` library.  Each builder wraps its body in a
try/except block, prints a success or failure line and returns a boolean.
The orchestrator `main` creates `docs/diagrams`, changes the working
directory into it, invokes the four builders in order, prints a summary
and returns whether every builder succeeded; the `__main__` guard turns
that flag into the process exit code.

The embedding threads the observable process state explicitly: working
directory, set of directories, set of files, console output and the
history of working-directory changes.  The external `diagrams` library
and the OS `mkdir` call are the only sources of failure; they are
abstracted by oracles (`World`): each oracle field is the exception
raised by the corresponding call block, `none` meaning the block
completes normally.  The import-time line `sys.path.insert(0, os.getcwd())`
only affects module lookup and is not modelled.
-/

namespace GenerateDiagrams

/-- An absolute filesystem path, as a list of segments. -/
abbrev FsPath := List String

/-- The observable process state threaded through the script: working
directory, directories and files of the filesystem, console lines in
order, and the history of working-directory changes. -/
structure PyState where
  cwd : FsPath
  dirs : List FsPath
  files : List FsPath
  output : List String
  chdirTrace : List FsPath
deriving Repr, DecidableEq

/-- Oracles for the two external collaborators, the OS and the
`diagrams` library.  Each field is the exception raised by the
corresponding call block (`none` means the block completes normally):
`mkdirError` for `Path.mkdir` in `main`, and one field per builder for
its icon imports plus diagram construction and rendering. -/
structure World where
  mkdirError : Option String
  hobbyError : Option String
  consolidatedError : Option String
  futureError : Option String
  neonError : Option String
deriving Repr, DecidableEq

/-- Render a path the way `str(Path.absolute())` does on POSIX. -/
def pathString (p : FsPath) : String :=
  "/" ++ String.intercalate "/" p

/-- Modelled from the spec: the external `diagrams` library names the PNG
it renders by a deterministic slug of the diagram title, lowercased with
spaces replaced by underscores, plus the `.png` extension.  (Character
level formulation, since each of the two Python steps
`.lower()` and `.replace(" ", "_")` acts one character at a time.) -/
def diagramFileName (title : String) : String :=
  String.mk (title.data.map (fun c => if c = ' ' then '_' else c.toLower)) ++ ".png"

/-- Add a filesystem entry: no change when the path is already present
(a file write overwrites in place, a `mkdir` of an existing directory
with `exist_ok=True` is a no-op). -/
def insertEntry (es : List FsPath) (p : FsPath) : List FsPath :=
  if p ∈ es then es else es ++ [p]

/-- Python `Path.mkdir(parents=True, exist_ok=True)` on a path relative
to the current working directory: every missing ancestor is created,
existing directories are left alone. -/
def mkdirParents (s : PyState) (rel : List String) : PyState :=
  { s with
    dirs := (List.range rel.length).foldl
      (fun ds i => insertEntry ds (s.cwd ++ rel.take (i + 1))) s.dirs }

/-- Bool test for a `*.png` file name, as used by the glob pattern. -/
def isPngName (n : String) : Bool :=
  List.isSuffixOf (".png".data) n.data

/-- Python `Path.glob` with the pattern `*.png` on a directory: the
files whose parent is that directory and whose name matches; total, and
empty when the directory does not exist. -/
def globPng (files : List FsPath) (dir : FsPath) : List FsPath :=
  files.filter (fun p => p.dropLast == dir && isPngName (p.getLastD ""))

/-- Shared shape of the four builders (the try/except body): a block of
`diagrams`-library calls abstracted by the oracle `err`.  On normal
completion the `with Diagram(title, show=False)` block renders exactly
one PNG named from the title into the current working directory, the
builder prints its success line and returns `True`.  On an exception the
builder catches it, prints one failure line containing the exception
text, and returns `False`; nothing propagates (the return type has no
error component). -/
def runBuilder (title failLabel : String) (err : Option String) (s : PyState) :
    Bool × PyState :=
  match err with
  | none =>
      (true,
        { s with
          files := insertEntry s.files (s.cwd ++ [diagramFileName title]),
          output := s.output ++ ["✅ Generated: " ++ title] })
  | some e =>
      (false,
        { s with output := s.output ++
            ["❌ Failed to generate " ++ failLabel ++ ": " ++ e] })

/-- Lines 15-69: builder for the current EC2-based hobby deployment
diagram.  The fixed node/cluster/edge content is presentational data
consumed by the external renderer and has no observable effect beyond
the rendered PNG; it is absorbed into the oracle-abstracted block. -/
def generate_current_hobby_architecture (err : Option String) (s : PyState) :
    Bool × PyState :=
  runBuilder "Current Hobby Deployment Architecture"
    "current hobby architecture" err s

/-- Lines 71-133: builder for the consolidated ECS + external services
diagram. -/
def generate_consolidated_architecture (err : Option String) (s : PyState) :
    Bool × PyState :=
  runBuilder "Consolidated ECS + External Services Architecture"
    "consolidated architecture" err s

/-- Lines 135-209: builder for the future scaling architecture diagram. -/
def generate_future_scaling_architecture (err : Option String) (s : PyState) :
    Bool × PyState :=
  runBuilder "Future Scaling Architecture"
    "future scaling architecture" err s

/-- Lines 211-273: builder for the corrected Neon database branching
strategy diagram. -/
def generate_corrected_neon_branching (err : Option String) (s : PyState) :
    Bool × PyState :=
  runBuilder "Corrected Neon Database Branching Strategy"
    "corrected Neon branching" err s

/-- The relative output directory `docs/diagrams` (line 280). -/
def diagramsDirRel : List String := ["docs", "diagrams"]

/-- Lines 277-284 of `main`: print the start line, create `docs/diagrams`
(the success case; the failing case is handled in `main`), and change the
working directory into it. -/
def startupState (s : PyState) : PyState :=
  let s0 := { s with output := s.output ++ ["🚀 Starting diagram generation..."] }
  let s1 := mkdirParents s0 diagramsDirRel
  { s1 with
    cwd := s1.cwd ++ diagramsDirRel,
    chdirTrace := s1.chdirTrace ++ [s1.cwd ++ diagramsDirRel] }

/-- Lines 287-291: invoke the four builders in their fixed order and
aggregate the (name, success) pairs in that order. -/
def runBuilders (w : World) (s : PyState) : List (String × Bool) × PyState :=
  let (r1, s1) := generate_current_hobby_architecture w.hobbyError s
  let (r2, s2) := generate_consolidated_architecture w.consolidatedError s1
  let (r3, s3) := generate_future_scaling_architecture w.futureError s2
  let (r4, s4) := generate_corrected_neon_branching w.neonError s3
  ([("Current Hobby Architecture", r1),
    ("Consolidated Architecture", r2),
    ("Future Scaling Architecture", r3),
    ("Corrected Neon Branching", r4)], s4)

/-- Lines 293-312: print the per-builder summary and the tally, print the
output path via `diagrams_dir.absolute()` (which resolves the relative
`docs/diagrams` against the CURRENT working directory, already changed by
line 284), glob `*.png` under that same resolved path, list any matches,
and return whether every builder succeeded. -/
def mainReport (results : List (String × Bool)) (s : PyState) : Bool × PyState :=
  let s := { s with
    output := s.output ++ ["\n📊 Generation Results:"] ++
      results.map (fun (r : String × Bool) =>
        "  " ++ r.1 ++ ": " ++ (if r.2 then "✅ SUCCESS" else "❌ FAILED")) }
  let successful := (results.filter (fun r => r.2)).length
  let s := { s with
    output := s.output ++
      ["\n📁 Generated " ++ toString successful ++ "/" ++
        toString results.length ++ " diagrams successfully"] }
  let absDir := s.cwd ++ diagramsDirRel
  let s := { s with
    output := s.output ++
      ["📂 Diagrams saved to: " ++ pathString absDir] }
  let png_files := globPng s.files absDir
  let s :=
    if png_files.isEmpty then s
    else { s with
      output := s.output ++ ["\n📄 Generated files:"] ++
        png_files.map (fun p => "  - " ++ p.getLastD "") }
  (successful == results.length, s)

/-- Lines 275-312: `main`.  The only uncaught failure point is the
`mkdir` call; when it raises, the exception propagates out of `main` and
the process dies (the `Except.error` branch).  Otherwise `main` runs the
builders and the report and returns the success flag. -/
def main (w : World) (s : PyState) : Except String (Bool × PyState) :=
  match w.mkdirError with
  | some e => Except.error e
  | none =>
    let (results, s3) := runBuilders w (startupState s)
    Except.ok (mainReport results s3)

/-- Line 316: the exit code `sys.exit` derives from the returned flag. -/
def sysExitOf (success : Bool) : Nat :=
  if success then 0 else 1

/-- Lines 314-316 plus the interpreter convention that an uncaught
exception terminates the process with exit code 1. -/
def scriptExitCode (w : World) (s : PyState) : Nat :=
  match main w s with
  | Except.ok r => sysExitOf r.1
  | Except.error _ => 1

/-- A fresh process started in working directory `c` over a filesystem
with the given directories and files. -/
def initialState (c : FsPath) (dirs files : List FsPath) : PyState :=
  { cwd := c, dirs := dirs, files := files, output := [], chdirTrace := [] }

/-- The world in which the OS and every `diagrams`-library block
succeed. -/
def okWorld : World := ⟨none, none, none, none, none⟩

/-- One full successful process run of the script from working directory
`c`: the directories and files left on the filesystem.  The error branch
is unreachable for `okWorld` (see the totality theorem). -/
def runScript (c : FsPath) (dirs files : List FsPath) : List FsPath × List FsPath :=
  match main okWorld (initialState c dirs files) with
  | Except.ok r => (r.2.dirs, r.2.files)
  | Except.error _ => (dirs, files)

/-- The four PNG paths a fully successful run writes, inside the
directory the run changes into. -/
def generatedPaths (c : FsPath) : List FsPath :=
  ["current_hobby_deployment_architecture.png",
   "consolidated_ecs_+_external_services_architecture.png",
   "future_scaling_architecture.png",
   "corrected_neon_database_branching_strategy.png"].map
    (fun n => c ++ ["docs", "diagrams", n])

/-! ### Helper lemmas -/

/-- The success flag of a builder depends only on whether its block of
library calls raised. -/
theorem runBuilder_fst (title failLabel : String) (err : Option String) (s : PyState) :
    (runBuilder title failLabel err s).1 = err.isNone := by
  cases err <;> rfl

/-- A builder never changes the working directory. -/
theorem runBuilder_cwd (title failLabel : String) (err : Option String) (s : PyState) :
    (runBuilder title failLabel err s).2.cwd = s.cwd := by
  cases err <;> rfl

/-- A builder never changes the directory set. -/
theorem runBuilder_dirs (title failLabel : String) (err : Option String) (s : PyState) :
    (runBuilder title failLabel err s).2.dirs = s.dirs := by
  cases err <;> rfl

/-- A builder never performs a chdir. -/
theorem runBuilder_chdirTrace (title failLabel : String) (err : Option String) (s : PyState) :
    (runBuilder title failLabel err s).2.chdirTrace = s.chdirTrace := by
  cases err <;> rfl

/-- Membership after adding a filesystem entry. -/
theorem mem_insertEntry (es : List FsPath) (p q : FsPath) :
    p ∈ insertEntry es q ↔ p ∈ es ∨ p = q := by
  unfold insertEntry
  by_cases h : q ∈ es
  · simp only [if_pos h]
    constructor
    · exact Or.inl
    · rintro (hp | rfl)
      · exact hp
      · exact h
  · simp [if_neg h]

/-- Adding an entry that is already present changes nothing (the
overwrite-in-place case). -/
theorem insertEntry_of_mem {es : List FsPath} {q : FsPath} (h : q ∈ es) :
    insertEntry es q = es := by
  simp [insertEntry, h]

/-- The added entry is present afterwards. -/
theorem self_mem_insertEntry (es : List FsPath) (q : FsPath) :
    q ∈ insertEntry es q :=
  (mem_insertEntry es q q).2 (Or.inr rfl)

/-- Concrete slug of the first diagram title. -/
theorem diagramFileName_hobby :
    diagramFileName "Current Hobby Deployment Architecture" =
      "current_hobby_deployment_architecture.png" := by decide

/-- Concrete slug of the second diagram title. -/
theorem diagramFileName_consolidated :
    diagramFileName "Consolidated ECS + External Services Architecture" =
      "consolidated_ecs_+_external_services_architecture.png" := by decide

/-- Concrete slug of the third diagram title. -/
theorem diagramFileName_future :
    diagramFileName "Future Scaling Architecture" =
      "future_scaling_architecture.png" := by decide

/-- Concrete slug of the fourth diagram title. -/
theorem diagramFileName_neon :
    diagramFileName "Corrected Neon Database Branching Strategy" =
      "corrected_neon_database_branching_strategy.png" := by decide

/-- The startup phase ends in the output directory. -/
theorem startupState_cwd (s : PyState) :
    (startupState s).cwd = s.cwd ++ diagramsDirRel := rfl

/-- The startup phase performs exactly one chdir, into the output
directory. -/
theorem startupState_chdirTrace (s : PyState) :
    (startupState s).chdirTrace = s.chdirTrace ++ [s.cwd ++ diagramsDirRel] := rfl

/-- The startup phase creates docs and docs/diagrams, in order, and
touches no other directory. -/
theorem startupState_dirs (s : PyState) :
    (startupState s).dirs =
      insertEntry (insertEntry s.dirs (s.cwd ++ ["docs"]))
        (s.cwd ++ ["docs", "diagrams"]) := rfl

/-- The startup phase writes no file. -/
theorem startupState_files (s : PyState) :
    (startupState s).files = s.files := rfl

/-- The builder sequence preserves the working directory. -/
theorem runBuilders_snd_cwd (w : World) (s : PyState) :
    (runBuilders w s).2.cwd = s.cwd := by
  obtain ⟨m, a, b, c, d⟩ := w
  cases a <;> cases b <;> cases c <;> cases d <;> rfl

/-- The builder sequence preserves the directory set. -/
theorem runBuilders_snd_dirs (w : World) (s : PyState) :
    (runBuilders w s).2.dirs = s.dirs := by
  obtain ⟨m, a, b, c, d⟩ := w
  cases a <;> cases b <;> cases c <;> cases d <;> rfl

/-- The builder sequence performs no chdir. -/
theorem runBuilders_snd_chdirTrace (w : World) (s : PyState) :
    (runBuilders w s).2.chdirTrace = s.chdirTrace := by
  obtain ⟨m, a, b, c, d⟩ := w
  cases a <;> cases b <;> cases c <;> cases d <;> rfl

/-- In the all-success world the builder sequence writes exactly the
four title-named PNGs into the current working directory, in order. -/
theorem runBuilders_okWorld_files (s : PyState) :
    (runBuilders okWorld s).2.files =
      insertEntry (insertEntry (insertEntry (insertEntry s.files
        (s.cwd ++ [diagramFileName "Current Hobby Deployment Architecture"]))
        (s.cwd ++ [diagramFileName "Consolidated ECS + External Services Architecture"]))
        (s.cwd ++ [diagramFileName "Future Scaling Architecture"]))
        (s.cwd ++ [diagramFileName "Corrected Neon Database Branching Strategy"]) := rfl

/-- The report flag is the comparison of the success count with the
total count. -/
theorem mainReport_fst (results : List (String × Bool)) (s : PyState) :
    (mainReport results s).1 =
      ((results.filter (fun r => r.2)).length == results.length) := rfl

/-- The report only prints; it writes no file. -/
theorem mainReport_files (results : List (String × Bool)) (s : PyState) :
    (mainReport results s).2.files = s.files := by
  unfold mainReport
  dsimp only
  split <;> rfl

/-- The report creates no directory. -/
theorem mainReport_dirs (results : List (String × Bool)) (s : PyState) :
    (mainReport results s).2.dirs = s.dirs := by
  unfold mainReport
  dsimp only
  split <;> rfl

/-- The report does not change the working directory. -/
theorem mainReport_cwd (results : List (String × Bool)) (s : PyState) :
    (mainReport results s).2.cwd = s.cwd := by
  unfold mainReport
  dsimp only
  split <;> rfl

/-- The report performs no chdir. -/
theorem mainReport_chdirTrace (results : List (String × Bool)) (s : PyState) :
    (mainReport results s).2.chdirTrace = s.chdirTrace := by
  unfold mainReport
  dsimp only
  split <;> rfl

/-- The report always prints the tally line, with the count of true
entries over the total. -/
theorem tally_mem_mainReport (results : List (String × Bool)) (s : PyState) :
    ("\n📁 Generated " ++ toString ((results.filter (fun r => r.2)).length) ++
      "/" ++ toString results.length ++ " diagrams successfully") ∈
      (mainReport results s).2.output := by
  unfold mainReport
  dsimp only
  split <;> simp

/-- When mkdir succeeds, main is the report over the builder results. -/
theorem main_none (o1 o2 o3 o4 : Option String) (s : PyState) :
    main ⟨none, o1, o2, o3, o4⟩ s =
      Except.ok (mainReport
        (runBuilders ⟨none, o1, o2, o3, o4⟩ (startupState s)).1
        (runBuilders ⟨none, o1, o2, o3, o4⟩ (startupState s)).2) := rfl

/-- When mkdir raises, main propagates the exception. -/
theorem main_some (e : String) (o1 o2 o3 o4 : Option String) (s : PyState) :
    main ⟨some e, o1, o2, o3, o4⟩ s = Except.error e := rfl

/-- Specialisation of `main_none` to the all-success world. -/
theorem main_okWorld (s : PyState) :
    main okWorld s =
      Except.ok (mainReport
        (runBuilders okWorld (startupState s)).1
        (runBuilders okWorld (startupState s)).2) := rfl

/-- The filesystem left by one successful process run. -/
theorem runScript_eq (c : FsPath) (ds fs : List FsPath) :
    runScript c ds fs =
      (insertEntry (insertEntry ds (c ++ ["docs"])) (c ++ ["docs", "diagrams"]),
       insertEntry (insertEntry (insertEntry (insertEntry fs
         ((c ++ diagramsDirRel) ++ [diagramFileName "Current Hobby Deployment Architecture"]))
         ((c ++ diagramsDirRel) ++ [diagramFileName "Consolidated ECS + External Services Architecture"]))
         ((c ++ diagramsDirRel) ++ [diagramFileName "Future Scaling Architecture"]))
         ((c ++ diagramsDirRel) ++ [diagramFileName "Corrected Neon Database Branching Strategy"])) := by
  unfold runScript
  rw [main_okWorld]
  dsimp only
  rw [mainReport_dirs, mainReport_files, runBuilders_snd_dirs, runBuilders_okWorld_files,
    startupState_dirs, startupState_files, startupState_cwd]
  rfl

/-- The four generated paths are pairwise distinct. -/
theorem generatedPaths_nodup (c : FsPath) : (generatedPaths c).Nodup := by
  apply List.Nodup.map
  · intro x y h
    have h2 := List.append_cancel_left h
    simpa using h2
  · decide

/-! ### Claims -/

/-- C1: the orchestrator `main` returns overall success exactly when all
four builders returned success (the returned flag equals the logical AND
of the four builder results), and the process exit code is 0 on full
success and 1 otherwise (including the case of the one uncaught
exception, from mkdir, where the interpreter exits with 1). -/
theorem main_flag_is_and_of_builders (o1 o2 o3 o4 : Option String)
    (e : String) (s : PyState) :
    (main ⟨none, o1, o2, o3, o4⟩ s).toOption.map Prod.fst =
      some ((generate_current_hobby_architecture o1 s).1 &&
        (generate_consolidated_architecture o2 s).1 &&
        (generate_future_scaling_architecture o3 s).1 &&
        (generate_corrected_neon_branching o4 s).1) ∧
    scriptExitCode ⟨none, o1, o2, o3, o4⟩ s =
      (if (generate_current_hobby_architecture o1 s).1 &&
          (generate_consolidated_architecture o2 s).1 &&
          (generate_future_scaling_architecture o3 s).1 &&
          (generate_corrected_neon_branching o4 s).1 then 0 else 1) ∧
    scriptExitCode ⟨some e, o1, o2, o3, o4⟩ s = 1 := by
  cases o1 <;> cases o2 <;> cases o3 <;> cases o4 <;> exact ⟨rfl, rfl, rfl⟩

/-- C2: for every builder and every exception raised inside its block of
icon imports and scene construction/rendering, the builder catches the
exception, prints exactly one failure line containing the exception
text, and returns False.  The return type `Bool × PyState` has no error
component, so no exception ever propagates to the orchestrator. -/
theorem builders_catch_and_report (e : String) (s : PyState) :
    generate_current_hobby_architecture (some e) s =
      (false, { s with output := s.output ++
        ["❌ Failed to generate current hobby architecture: " ++ e] }) ∧
    generate_consolidated_architecture (some e) s =
      (false, { s with output := s.output ++
        ["❌ Failed to generate consolidated architecture: " ++ e] }) ∧
    generate_future_scaling_architecture (some e) s =
      (false, { s with output := s.output ++
        ["❌ Failed to generate future scaling architecture: " ++ e] }) ∧
    generate_corrected_neon_branching (some e) s =
      (false, { s with output := s.output ++
        ["❌ Failed to generate corrected Neon branching: " ++ e] }) :=
  ⟨rfl, rfl, rfl, rfl⟩

/-- C3 is refuted on the code: in a fully successful run started from
the directory /repo, the orchestrator does NOT print the absolute path
of the output directory /repo/docs/diagrams; because the relative
`diagrams_dir` is resolved after `os.chdir`, it prints
/repo/docs/diagrams/docs/diagrams, and although the four PNGs exist in
the output directory /repo/docs/diagrams, the glob looks in the doubled
path and the file-listing section is never printed. -/
theorem main_reports_wrong_directory :
    (main okWorld (initialState ["repo"] [] [])).toOption.map (fun r =>
      (r.2.output.contains
        ("📂 Diagrams saved to: " ++ pathString (["repo"] ++ diagramsDirRel)),
       r.2.output.contains
        ("📂 Diagrams saved to: " ++
          pathString (["repo"] ++ diagramsDirRel ++ diagramsDirRel)),
       (generatedPaths ["repo"]).all (fun p => r.2.files.contains p),
       r.2.output.contains "\n📄 Generated files:")) =
      some (false, true, true, false) := by decide

/-- C4: whenever `main` completes, the printed tally line carries
exactly the number of true entries of the aggregated results list, over
the total, and the total is 4, so the tally is count/4 with count at
most 4. -/
theorem main_tally_counts_successes (o1 o2 o3 o4 : Option String) (s : PyState) :
    ∃ b s₂, main ⟨none, o1, o2, o3, o4⟩ s = Except.ok (b, s₂) ∧
      ("\n📁 Generated " ++
        toString (((runBuilders ⟨none, o1, o2, o3, o4⟩ (startupState s)).1.filter
          (fun r => r.2)).length) ++ "/" ++
        toString (runBuilders ⟨none, o1, o2, o3, o4⟩ (startupState s)).1.length ++
        " diagrams successfully") ∈ s₂.output ∧
      (runBuilders ⟨none, o1, o2, o3, o4⟩ (startupState s)).1.length = 4 ∧
      ((runBuilders ⟨none, o1, o2, o3, o4⟩ (startupState s)).1.filter
        (fun r => r.2)).length ≤ 4 := by
  refine ⟨_, _, main_none o1 o2 o3 o4 s, tally_mem_mainReport _ _, ?_, ?_⟩
  · obtain ⟨a⟩ | a := o1 <;> obtain ⟨b⟩ | b := o2 <;>
      obtain ⟨c⟩ | c := o3 <;> obtain ⟨d⟩ | d := o4 <;> rfl
  · have h := List.length_filter_le (fun (r : String × Bool) => r.2)
      (runBuilders ⟨none, o1, o2, o3, o4⟩ (startupState s)).1
    have h4 : (runBuilders ⟨none, o1, o2, o3, o4⟩ (startupState s)).1.length = 4 := by
      obtain ⟨a⟩ | a := o1 <;> obtain ⟨b⟩ | b := o2 <;>
        obtain ⟨c⟩ | c := o3 <;> obtain ⟨d⟩ | d := o4 <;> rfl
    omega

/-- C5: with the rendering dependency available (no exception), each of
the four builders writes exactly one PNG into the current working
directory, named by the deterministic slug of its diagram title
(lowercased, spaces replaced by underscores), and returns True; the four
concrete slugs are also computed. -/
theorem builders_write_named_png (s : PyState) :
    (generate_current_hobby_architecture none s =
      (true, { s with
        files := insertEntry s.files
          (s.cwd ++ [diagramFileName "Current Hobby Deployment Architecture"]),
        output := s.output ++
          ["✅ Generated: Current Hobby Deployment Architecture"] }) ∧
      diagramFileName "Current Hobby Deployment Architecture" =
        "current_hobby_deployment_architecture.png") ∧
    (generate_consolidated_architecture none s =
      (true, { s with
        files := insertEntry s.files
          (s.cwd ++ [diagramFileName "Consolidated ECS + External Services Architecture"]),
        output := s.output ++
          ["✅ Generated: Consolidated ECS + External Services Architecture"] }) ∧
      diagramFileName "Consolidated ECS + External Services Architecture" =
        "consolidated_ecs_+_external_services_architecture.png") ∧
    (generate_future_scaling_architecture none s =
      (true, { s with
        files := insertEntry s.files
          (s.cwd ++ [diagramFileName "Future Scaling Architecture"]),
        output := s.output ++
          ["✅ Generated: Future Scaling Architecture"] }) ∧
      diagramFileName "Future Scaling Architecture" =
        "future_scaling_architecture.png") ∧
    (generate_corrected_neon_branching none s =
      (true, { s with
        files := insertEntry s.files
          (s.cwd ++ [diagramFileName "Corrected Neon Database Branching Strategy"]),
        output := s.output ++
          ["✅ Generated: Corrected Neon Database Branching Strategy"] }) ∧
      diagramFileName "Corrected Neon Database Branching Strategy" =
        "corrected_neon_database_branching_strategy.png") :=
  ⟨⟨rfl, diagramFileName_hobby⟩, ⟨rfl, diagramFileName_consolidated⟩,
   ⟨rfl, diagramFileName_future⟩, ⟨rfl, diagramFileName_neon⟩⟩

/-- C6: when the mkdir call completes, main proceeds and afterwards both
docs and docs/diagrams exist under the invocation directory, whether or
not they existed before (`insertEntry` is a no-op on an existing entry);
when the mkdir call raises, the exception propagates out of main
uncaught and aborts the whole run. -/
theorem main_mkdir_create_or_propagate (o1 o2 o3 o4 : Option String)
    (e : String) (s : PyState) :
    main ⟨some e, o1, o2, o3, o4⟩ s = Except.error e ∧
    (main ⟨none, o1, o2, o3, o4⟩ s).toOption.map (fun r => r.2.dirs) =
      some (insertEntry (insertEntry s.dirs (s.cwd ++ ["docs"]))
        (s.cwd ++ ["docs", "diagrams"])) ∧
    s.cwd ++ ["docs"] ∈ insertEntry (insertEntry s.dirs (s.cwd ++ ["docs"]))
      (s.cwd ++ ["docs", "diagrams"]) ∧
    s.cwd ++ ["docs", "diagrams"] ∈ insertEntry (insertEntry s.dirs (s.cwd ++ ["docs"]))
      (s.cwd ++ ["docs", "diagrams"]) := by
  refine ⟨rfl, ?_, ?_, ?_⟩
  · rw [main_none]
    simp only [Except.toOption, Option.map]
    rw [mainReport_dirs, runBuilders_snd_dirs, startupState_dirs]
  · exact (mem_insertEntry _ _ _).2 (Or.inl (self_mem_insertEntry _ _))
  · exact self_mem_insertEntry _ _

/-- C7: a second fully successful process run from the same invocation
directory is idempotent on the filesystem: it leaves exactly the
directories and files of the first run, the files after a run are the
initial files plus the four generated PNG paths (overwritten in place
when already present, so no duplicates and no stale extra files), and
the four generated paths are pairwise distinct. -/
theorem runScript_idempotent (c : FsPath) (ds fs : List FsPath) :
    runScript c (runScript c ds fs).1 (runScript c ds fs).2 = runScript c ds fs ∧
    (∀ p, p ∈ (runScript c ds fs).2 ↔ p ∈ fs ∨ p ∈ generatedPaths c) ∧
    (generatedPaths c).Nodup := by
  refine ⟨?_, ?_, generatedPaths_nodup c⟩
  · rw [runScript_eq c ds fs, runScript_eq c]
    have hdocs : c ++ ["docs"] ∈
        insertEntry (insertEntry ds (c ++ ["docs"])) (c ++ ["docs", "diagrams"]) :=
      (mem_insertEntry _ _ _).2 (Or.inl (self_mem_insertEntry _ _))
    have hdd : c ++ ["docs", "diagrams"] ∈
        insertEntry (insertEntry ds (c ++ ["docs"])) (c ++ ["docs", "diagrams"]) :=
      self_mem_insertEntry _ _
    rw [insertEntry_of_mem hdocs, insertEntry_of_mem hdd]
    have m1 : (c ++ diagramsDirRel) ++
        [diagramFileName "Current Hobby Deployment Architecture"] ∈
        insertEntry (insertEntry (insertEntry (insertEntry fs
          ((c ++ diagramsDirRel) ++ [diagramFileName "Current Hobby Deployment Architecture"]))
          ((c ++ diagramsDirRel) ++ [diagramFileName "Consolidated ECS + External Services Architecture"]))
          ((c ++ diagramsDirRel) ++ [diagramFileName "Future Scaling Architecture"]))
          ((c ++ diagramsDirRel) ++ [diagramFileName "Corrected Neon Database Branching Strategy"]) := by
      refine (mem_insertEntry _ _ _).2 (Or.inl ?_)
      refine (mem_insertEntry _ _ _).2 (Or.inl ?_)
      refine (mem_insertEntry _ _ _).2 (Or.inl ?_)
      exact self_mem_insertEntry _ _
    have m2 : (c ++ diagramsDirRel) ++
        [diagramFileName "Consolidated ECS + External Services Architecture"] ∈
        insertEntry (insertEntry (insertEntry (insertEntry fs
          ((c ++ diagramsDirRel) ++ [diagramFileName "Current Hobby Deployment Architecture"]))
          ((c ++ diagramsDirRel) ++ [diagramFileName "Consolidated ECS + External Services Architecture"]))
          ((c ++ diagramsDirRel) ++ [diagramFileName "Future Scaling Architecture"]))
          ((c ++ diagramsDirRel) ++ [diagramFileName "Corrected Neon Database Branching Strategy"]) := by
      refine (mem_insertEntry _ _ _).2 (Or.inl ?_)
      refine (mem_insertEntry _ _ _).2 (Or.inl ?_)
      exact self_mem_insertEntry _ _
    have m3 : (c ++ diagramsDirRel) ++
        [diagramFileName "Future Scaling Architecture"] ∈
        insertEntry (insertEntry (insertEntry (insertEntry fs
          ((c ++ diagramsDirRel) ++ [diagramFileName "Current Hobby Deployment Architecture"]))
          ((c ++ diagramsDirRel) ++ [diagramFileName "Consolidated ECS + External Services Architecture"]))
          ((c ++ diagramsDirRel) ++ [diagramFileName "Future Scaling Architecture"]))
          ((c ++ diagramsDirRel) ++ [diagramFileName "Corrected Neon Database Branching Strategy"]) := by
      refine (mem_insertEntry _ _ _).2 (Or.inl ?_)
      exact self_mem_insertEntry _ _
    have m4 : (c ++ diagramsDirRel) ++
        [diagramFileName "Corrected Neon Database Branching Strategy"] ∈
        insertEntry (insertEntry (insertEntry (insertEntry fs
          ((c ++ diagramsDirRel) ++ [diagramFileName "Current Hobby Deployment Architecture"]))
          ((c ++ diagramsDirRel) ++ [diagramFileName "Consolidated ECS + External Services Architecture"]))
          ((c ++ diagramsDirRel) ++ [diagramFileName "Future Scaling Architecture"]))
          ((c ++ diagramsDirRel) ++ [diagramFileName "Corrected Neon Database Branching Strategy"]) :=
      self_mem_insertEntry _ _
    rw [insertEntry_of_mem m1, insertEntry_of_mem m2, insertEntry_of_mem m3,
      insertEntry_of_mem m4]
  · intro p
    rw [runScript_eq c ds fs]
    simp only [mem_insertEntry, generatedPaths, diagramFileName_hobby,
      diagramFileName_consolidated, diagramFileName_future, diagramFileName_neon,
      diagramsDirRel, List.map_cons, List.map_nil, List.mem_cons,
      List.not_mem_nil, List.append_assoc, List.cons_append, List.nil_append,
      List.singleton_append, or_false]
    tauto

/-- C8: the orchestrator invokes the four builders in the fixed order
(current hobby, consolidated, future scaling, corrected Neon branching)
and aggregates the results as an ordered list of exactly four
(name, success) pairs in that same order. -/
theorem runBuilders_fixed_order (w : World) (s : PyState) :
    (runBuilders w s).1 =
      [("Current Hobby Architecture",
         (generate_current_hobby_architecture w.hobbyError s).1),
       ("Consolidated Architecture",
         (generate_consolidated_architecture w.consolidatedError s).1),
       ("Future Scaling Architecture",
         (generate_future_scaling_architecture w.futureError s).1),
       ("Corrected Neon Branching",
         (generate_corrected_neon_branching w.neonError s).1)] ∧
    (runBuilders w s).1.length = 4 := by
  obtain ⟨m, a, b, c, d⟩ := w
  cases a <;> cases b <;> cases c <;> cases d <;> exact ⟨rfl, rfl⟩

/-- C9: a completed run changes the working directory exactly once, from
the invocation directory into the output directory, where it stays for
the rest of the run; no builder changes the working directory or
performs a further chdir. -/
theorem main_single_chdir (o1 o2 o3 o4 : Option String) (s : PyState) :
    (main ⟨none, o1, o2, o3, o4⟩ s).toOption.map (fun r => r.2.chdirTrace) =
      some (s.chdirTrace ++ [s.cwd ++ diagramsDirRel]) ∧
    (main ⟨none, o1, o2, o3, o4⟩ s).toOption.map (fun r => r.2.cwd) =
      some (s.cwd ++ diagramsDirRel) ∧
    (∀ err t,
      ((generate_current_hobby_architecture err t).2.cwd = t.cwd ∧
        (generate_current_hobby_architecture err t).2.chdirTrace = t.chdirTrace) ∧
      ((generate_consolidated_architecture err t).2.cwd = t.cwd ∧
        (generate_consolidated_architecture err t).2.chdirTrace = t.chdirTrace) ∧
      ((generate_future_scaling_architecture err t).2.cwd = t.cwd ∧
        (generate_future_scaling_architecture err t).2.chdirTrace = t.chdirTrace) ∧
      ((generate_corrected_neon_branching err t).2.cwd = t.cwd ∧
        (generate_corrected_neon_branching err t).2.chdirTrace = t.chdirTrace)) := by
  refine ⟨?_, ?_, ?_⟩
  · rw [main_none]
    simp only [Except.toOption, Option.map]
    rw [mainReport_chdirTrace, runBuilders_snd_chdirTrace, startupState_chdirTrace]
  · rw [main_none]
    simp only [Except.toOption, Option.map]
    rw [mainReport_cwd, runBuilders_snd_cwd, startupState_cwd]
  · intro err t
    exact ⟨⟨runBuilder_cwd _ _ _ _, runBuilder_chdirTrace _ _ _ _⟩,
      ⟨runBuilder_cwd _ _ _ _, runBuilder_chdirTrace _ _ _ _⟩,
      ⟨runBuilder_cwd _ _ _ _, runBuilder_chdirTrace _ _ _ _⟩,
      ⟨runBuilder_cwd _ _ _ _, runBuilder_chdirTrace _ _ _ _⟩⟩

/-- C10: once the mkdir call has completed (so the working-directory
change succeeds), main can no longer raise: whatever the builder oracles
do, main returns a value (every builder exception is caught and turned
into a boolean), and the report's PNG glob is total even on a directory
that does not exist, returning a sublist of the existing files. -/
theorem main_total_after_setup (o1 o2 o3 o4 : Option String) (s : PyState)
    (files : List FsPath) (dir : FsPath) :
    (main ⟨none, o1, o2, o3, o4⟩ s).toOption.isSome = true ∧
    List.Sublist (globPng files dir) files := by
  constructor
  · rw [main_none]
    rfl
  · exact List.filter_sublist files

end GenerateDiagrams
